import Mathlib

/-!
Verification of the PysoRealm isometric game prototype (`src/rpg_game.py`)
against its natural-language specification.

Shallow embedding conventions:
* Python floats are modelled as rationals (`ℚ`); every float operation the
  embedded code performs (addition, subtraction, multiplication by constants,
  comparisons, min/max) is exact on the values involved, so the rational
  model is faithful for the properties proved here.
* Python integers and integer-valued float deltas are modelled as `Int`.
* The Python stdlib PRNG (`random.Random`) is modelled abstractly as a
  deterministic stream of natural-number draws together with a position:
  seeding with a fixed constant yields a fixed stream, and each
  `randint`/`choice` call consumes exactly one draw, matching the
  call-per-cell discipline of the generation loops.
* External collaborators (raylib rectangle collision helpers, the
  `math` trigonometry used to turn gamepad axes into an angle, and raylib
  vector normalisation) are modelled from their documented semantics or
  taken as parameters, as noted on each definition.
-/

/-! ## Constants (rpg_game.py lines 33-35, 50-51) -/

def TILE_WIDTH : ℚ := 256

def TILE_HEIGHT : ℚ := 128

def TILE_FULL_HEIGHT : ℚ := 512

def WORLD_WIDTH : ℕ := 12

def WORLD_HEIGHT : ℕ := 12

/-! ## Coordinate Mapper (rpg_game.py lines 717-738) -/

/-- Embeds `tile_to_screen_space` (lines 717-724): isometric tile coordinates
to screen coordinates, computed in the source's own sequence of steps. -/
def tile_to_screen_space (u v : ℚ) : ℚ × ℚ :=
  let x := (u + v) * (1/2)
  let y := (u - v) * (1/2)
  let x := x * TILE_WIDTH
  let y := y * TILE_HEIGHT
  let y := y - (TILE_FULL_HEIGHT - TILE_HEIGHT)
  (x, y)

/-- Embeds `tile_to_screen_space_vector` (lines 731-738): the `Vector2`
variant of the same transform, written out independently in the source. -/
def tile_to_screen_space_vector (uv : ℚ × ℚ) : ℚ × ℚ :=
  let x := (uv.1 + uv.2) * (1/2)
  let y := (uv.1 - uv.2) * (1/2)
  let x := x * TILE_WIDTH
  let y := y * TILE_HEIGHT
  let y := y - (TILE_FULL_HEIGHT - TILE_HEIGHT)
  (x, y)

/-- The transform's value at the origin, used to express its affine part. -/
def toScreenOrigin : ℚ × ℚ := tile_to_screen_space 0 0

/-! ## Actor initial state (rpg_game.py line 189) -/

/-- Embeds line 189: `char_pos = Vector2(WORLD_WIDTH / 2 - 1, WORLD_HEIGHT / 2 - 1)`. -/
def initCharPos : ℚ × ℚ := ((WORLD_WIDTH : ℚ) / 2 - 1, (WORLD_HEIGHT : ℚ) / 2 - 1)

/-! ## Input Resolver (rpg_game.py lines 264-338) -/

/-- Embeds the keyboard block (lines 267-278): each held key adds a fixed
±1 contribution to one or both axes of the movement delta `char_dp`.  The
contributions are exact integers, so the float vector is modelled as `Int × Int`. -/
def keyboardDelta (w s a d : Bool) : Int × Int :=
  let p : Int × Int := (0, 0)
  let p := if w then (p.1 - 1, p.2 + 1) else p
  let p := if s then (p.1 + 1, p.2 - 1) else p
  let p := if a then (p.1 - 1, p.2 - 1) else p
  let p := if d then (p.1 + 1, p.2 + 1) else p
  p

/-- Embeds the gamepad block (lines 283-318).  `magnitude` and `angle` are the
values the source computes at lines 288-291 from the raw axes using the Python
`math` stdlib (`sqrt`, `atan2`, `degrees`, `% 360`) — external collaborators,
so they are taken here as the inputs of the sector-selection logic, with
`angle` normalized to [0, 360) as the source guarantees.  Each 45°-wide sector
contributes a fixed integer pair; below the 0.4 deadzone nothing is added. -/
def gamepadDelta (available : Bool) (magnitude angle : ℚ) : Int × Int :=
  if available then
    if magnitude > 2/5 then
      if angle ≥ 675/2 ∨ angle < 45/2 then (-1, 1)
      else if 45/2 ≤ angle ∧ angle < 135/2 then (0, 2)
      else if 135/2 ≤ angle ∧ angle < 225/2 then (1, 1)
      else if 225/2 ≤ angle ∧ angle < 315/2 then (2, 0)
      else if 315/2 ≤ angle ∧ angle < 405/2 then (1, -1)
      else if 405/2 ≤ angle ∧ angle < 495/2 then (0, -2)
      else if 495/2 ≤ angle ∧ angle < 585/2 then (-1, -1)
      else if 585/2 ≤ angle ∧ angle < 675/2 then (-2, 0)
      else (0, 0)
    else (0, 0)
  else (0, 0)

/-- The combined movement delta `char_dp`: the keyboard and gamepad
contributions are summed (lines 264-318 accumulate into the same vector). -/
def movementIntent (w s a d available : Bool) (magnitude angle : ℚ) : Int × Int :=
  let k := keyboardDelta w s a d
  let g := gamepadDelta available magnitude angle
  (k.1 + g.1, k.2 + g.2)

/-- The 8 literal pairs of the `match` at lines 322-338, in source order.
Direction indices (module docstring, lines 12-20): 0 N, 1 NE, 2 E, 3 SE,
4 S, 5 SW, 6 W, 7 NW. -/
def dirPairs : List (Int × Int) :=
  [(0, 2), (1, 1), (2, 0), (1, -1), (0, -2), (-1, -1), (-2, 0), (-1, 1)]

/-- Embeds lines 320-338: `is_moving = False`, then the `match` on the
integer-truncated delta.  `char_dp` is always integer-valued, so `int()`
truncation is the identity and the delta is taken as `Int` directly.  The
Python `match` with literal cases is a sequential equality test, embedded as
an if-chain.  A non-matching pair falls through: `char_dir` keeps its value
from the previous frame, while `is_moving` keeps the `False` assigned at
line 320 regardless of the previous frame's value. -/
def resolveDirection (dx dy : Int) (prevDir : ℕ) (_prevMoving : Bool) : ℕ × Bool :=
  if dx = 0 ∧ dy = 2 then (0, true)
  else if dx = 1 ∧ dy = 1 then (1, true)
  else if dx = 2 ∧ dy = 0 then (2, true)
  else if dx = 1 ∧ dy = -1 then (3, true)
  else if dx = 0 ∧ dy = -2 then (4, true)
  else if dx = -1 ∧ dy = -1 then (5, true)
  else if dx = -2 ∧ dy = 0 then (6, true)
  else if dx = -1 ∧ dy = 1 then (7, true)
  else (prevDir, false)

/-! ## Rectangles and collision (rpg_game.py lines 108-115, 356-377) -/

/-- An axis-aligned rectangle `(x, y, width, height)` in tile space,
mirroring `pr.Rectangle`. -/
structure Rect where
  x : ℚ
  y : ℚ
  width : ℚ
  height : ℚ
  deriving DecidableEq, Repr

/-- Embeds line 108: `HIT_BOX_SMALL = Rectangle(4 - 0.125, -3 - 0.125, 0.25, 0.25)`. -/
def HIT_BOX_SMALL : Rect := ⟨4 - 1/8, -3 - 1/8, 1/4, 1/4⟩

/-- Embeds line 109. -/
def HIT_BOX_MEDIUM : Rect := ⟨4 - 1/4, -3 - 1/4, 1/2, 1/2⟩

/-- Embeds line 110. -/
def HIT_BOX_CHEST_EW : Rect := ⟨4 - 1/8, -3 - 3/20, 1/4, 3/10⟩

/-- Embeds line 111. -/
def HIT_BOX_CHEST_NS : Rect := ⟨4 - 3/20, -3 - 1/10, 3/10, 1/4⟩

/-- Embeds line 112. -/
def HIT_BOX_SPIRAL_N : Rect := ⟨4 - 3/8, -3 - 1/8, 1/2, 1/2⟩

/-- Embeds line 113. -/
def HIT_BOX_SPIRAL_E : Rect := ⟨4 - 1/8, -3 - 1/8, 1/2, 1/2⟩

/-- Embeds line 114. -/
def HIT_BOX_SPIRAL_S : Rect := ⟨4 - 3/8, -3 - 3/8, 1/2, 1/2⟩

/-- Embeds line 115. -/
def HIT_BOX_SPIRAL_W : Rect := ⟨4 - 1/2, -3, 5/8, 1/2⟩

/-- Modelled from the external raylib collaborator `CheckCollisionRecs`
(called at line 364): strict axis-aligned rectangle overlap test. -/
def checkCollisionRecs (a b : Rect) : Bool :=
  decide (a.x < b.x + b.width) && decide (a.x + a.width > b.x) &&
  decide (a.y < b.y + b.height) && decide (a.y + a.height > b.y)

/-- Modelled from the external raylib collaborator `GetCollisionRec`
(called at line 368): the intersection rectangle of two rectangles, the
zero rectangle when they do not overlap. -/
def getCollisionRec (a b : Rect) : Rect :=
  let left := max a.x b.x
  let right := min (a.x + a.width) (b.x + b.width)
  let top := max a.y b.y
  let bottom := min (a.y + a.height) (b.y + b.height)
  if left < right ∧ top < bottom then ⟨left, top, right - left, bottom - top⟩
  else ⟨0, 0, 0, 0⟩

/-- Embeds lines 356-361: the Actor's hitbox is `HIT_BOX_SMALL` translated
to the current character position. -/
def hitboxAt (pos : ℚ × ℚ) : Rect :=
  ⟨HIT_BOX_SMALL.x + pos.1, HIT_BOX_SMALL.y + pos.2,
   HIT_BOX_SMALL.width, HIT_BOX_SMALL.height⟩

/-- The mutable state threaded through the collision loop of lines 363-377:
character position, `is_moving`, and the `was_collision` debug flag. -/
structure ResolveState where
  pos : ℚ × ℚ
  moving : Bool
  wasCollision : Bool
  deriving DecidableEq, Repr

/-- Embeds the body of the collision loop (lines 364-377) for one obstacle
box.  Note that the source computes `character_hit_box` once, before the
loop, so `hb` stays fixed even while `char_pos` is pushed. -/
def resolveStep (hb : Rect) (st : ResolveState) (box : Rect) : ResolveState :=
  if checkCollisionRecs hb box then
    let diff := getCollisionRec hb box
    let pos :=
      if diff.width > diff.height then
        if diff.y > box.y then (st.pos.1, st.pos.2 + diff.height)
        else (st.pos.1, st.pos.2 - diff.height)
      else if diff.x > box.x then (st.pos.1 + diff.width, st.pos.2)
      else (st.pos.1 - diff.width, st.pos.2)
    { pos := pos, moving := false, wasCollision := true }
  else st

/-- Embeds the whole collision loop of lines 363-377: a single pass over the
obstacle boxes in list order. -/
def resolveAll (hb : Rect) (boxes : List Rect) (st : ResolveState) : ResolveState :=
  boxes.foldl (resolveStep hb) st

/-! ## Deterministic World Populator (rpg_game.py lines 258, 399-418, 486-509)

The Python stdlib PRNG `random.Random` (external to this repository) is
modelled abstractly as a deterministic stream of natural-number draws plus a
position; each `randint`/`choice` call consumes exactly one draw.  Seeding
with a fixed constant corresponds to starting from a fixed stream at
position 0. -/

/-- Abstract state of a `random.Random` instance: its (seed-determined)
stream of raw draws and the number of draws already consumed. -/
structure RandState where
  draws : ℕ → ℕ
  pos : ℕ

/-- Consume one raw draw. -/
def nextDraw (s : RandState) : ℕ × RandState :=
  (s.draws s.pos, { s with pos := s.pos + 1 })

/-- Modelled from the Python stdlib: `Random.randint(a, b)` returns an
integer in `[a, b]`, consuming one draw of the underlying stream. -/
def randint (s : RandState) (a b : ℕ) : ℕ × RandState :=
  let r := nextDraw s
  (a + r.1 % (b - a + 1), r.2)

/-- Modelled from the Python stdlib: `Random.choice(seq)` picks an index
below `len`, consuming one draw of the underlying stream.  Returns the
chosen index. -/
def choiceIdx (s : RandState) (len : ℕ) : ℕ × RandState :=
  let r := nextDraw s
  (r.1 % len, r.2)

/-- Run a per-cell generator over cells `0, 1, ..., n-1` in order, threading
the PRNG state, and collect the per-cell results in scan order. -/
def genList {α : Type} (n : ℕ) (f : ℕ → RandState → α × RandState)
    (s : RandState) : List α × RandState :=
  (List.range n).foldl
    (fun acc i =>
      let r := f i acc.2
      (acc.1 ++ [r.1], r.2))
    ([], s)

/-- Embeds the ground-floor loop (lines 400-407): one `choice` among the 8
floor textures (lines 90-99) per cell, in row-major scan order.  The result
records the chosen texture index per cell. -/
def floorGen : RandState → List ℕ × RandState :=
  genList (WORLD_WIDTH * WORLD_HEIGHT) (fun _ s => choiceIdx s 8)

/-- Embeds the ground-covering loop (lines 409-418): per cell one
`randint(0, 15)` presence draw, then — only when it is 0 — one `choice`
among the 4 covering textures (lines 101-106).  The result records the raw
presence draw and the optional covering choice per cell. -/
def coverGen : RandState → List (ℕ × Option ℕ) × RandState :=
  genList (WORLD_WIDTH * WORLD_HEIGHT) (fun _ s =>
    let r1 := randint s 0 15
    if r1.1 ≠ 0 then ((r1.1, none), r1.2)
    else
      let r2 := choiceIdx r1.2 4
      ((r1.1, some r2.1), r2.2))

/-- The hitboxes of the 36 scenery templates of `self.objects`
(lines 122-159), in source order: 4 barrels (small), 4 barrel groups
(medium), 4 crates (small), 4 crate groups (medium), 8 chests (EW/NS
alternating), 8 stone columns (small), 4 spiral stairs. -/
def objects : List Rect :=
  [HIT_BOX_SMALL, HIT_BOX_SMALL, HIT_BOX_SMALL, HIT_BOX_SMALL,
   HIT_BOX_MEDIUM, HIT_BOX_MEDIUM, HIT_BOX_MEDIUM, HIT_BOX_MEDIUM,
   HIT_BOX_SMALL, HIT_BOX_SMALL, HIT_BOX_SMALL, HIT_BOX_SMALL,
   HIT_BOX_MEDIUM, HIT_BOX_MEDIUM, HIT_BOX_MEDIUM, HIT_BOX_MEDIUM,
   HIT_BOX_CHEST_EW, HIT_BOX_CHEST_NS, HIT_BOX_CHEST_EW, HIT_BOX_CHEST_NS,
   HIT_BOX_CHEST_EW, HIT_BOX_CHEST_NS, HIT_BOX_CHEST_EW, HIT_BOX_CHEST_NS,
   HIT_BOX_SMALL, HIT_BOX_SMALL, HIT_BOX_SMALL, HIT_BOX_SMALL,
   HIT_BOX_SMALL, HIT_BOX_SMALL, HIT_BOX_SMALL, HIT_BOX_SMALL,
   HIT_BOX_SPIRAL_E, HIT_BOX_SPIRAL_S, HIT_BOX_SPIRAL_W, HIT_BOX_SPIRAL_N]

/-- Embeds the obstacle loop (lines 486-509): per cell one `randint(0, 4)`
presence draw; when it is 0, the cell coordinates `u = i // WIDTH`,
`v = HEIGHT - 1 - (i % HEIGHT)` are computed, edge cells are shifted inward
(`u == WIDTH-1` → `u-1`; `v == 0` → `v+1`), one `choice` picks a template,
and its hitbox translated by `(u, v)` is appended to the collision boxes.
The result records, per selected cell, the template index and the translated
collision box. -/
def obstacleGen : RandState → List (Option (ℕ × Rect)) × RandState :=
  genList (WORLD_WIDTH * WORLD_HEIGHT) (fun i s =>
    let r1 := randint s 0 4
    if r1.1 ≠ 0 then (none, r1.2)
    else
      let u0 := i / WORLD_WIDTH
      let v0 := WORLD_HEIGHT - 1 - (i % WORLD_HEIGHT)
      let u := if u0 = WORLD_WIDTH - 1 then u0 - 1 else u0
      let v := if v0 = 0 then v0 + 1 else v0
      let r2 := choiceIdx r1.2 objects.length
      let t := objects.getD r2.1 ⟨0, 0, 0, 0⟩
      (some (r2.1, ⟨t.x + (u : ℚ), t.y + (v : ℚ), t.width, t.height⟩), r2.2))

/-- One frame's world-generation output: floor-tile choices, ground-covering
presence draws and choices, and obstacle presence/template choices with
their translated collision boxes, each in row-major cell-scan order. -/
structure GenOutput where
  floorChoices : List ℕ
  coverings : List (ℕ × Option ℕ)
  obstacles : List (Option (ℕ × Rect))
  deriving DecidableEq, Repr

/-- The per-frame world generation in the order the frame loop consumes the
per-frame PRNG stream: floor loop (lines 400-407), covering loop (lines
409-418), obstacle loop (lines 486-509).  The wall and character drawing in
between consumes no draws of this stream. -/
def generateFrame (s : RandState) : GenOutput × RandState :=
  let f := floorGen s
  let c := coverGen f.2
  let o := obstacleGen c.2
  (⟨f.1, c.1, o.1⟩, o.2)

/-- The collision-box list derived from one frame's generation output, in
append order (line 509). -/
def boxesOf (g : GenOutput) : List Rect :=
  g.obstacles.filterMap (fun o => o.map Prod.snd)

/-- The collision-box list a frame generates from a freshly seeded per-frame
PRNG state. -/
def genCollBoxes (s : RandState) : List Rect := boxesOf (generateFrame s).1

/-! ## Animation accumulator (rpg_game.py lines 455-479, 641-647) -/

/-- Modelled from the Python builtin `int()` on floats: truncation toward
zero. -/
def pyTrunc (q : ℚ) : ℤ := if 0 ≤ q then ⌊q⌋ else ⌈q⌉

/-- Modelled from the Python float `%` operator, which for a positive
divisor returns the floor-remainder in `[0, b)`. -/
def pyFmod (a b : ℚ) : ℚ := a - b * ⌊a / b⌋

/-- Embeds the accumulator effect of the character-texture selection
(lines 455-479).  While moving, and while idle in the `Idle0` or
`Pickup` poses, the accumulator is untouched; only when the idle pickup
cycle has just completed (`animation_index == 0` and
`(acc - wait_time) * 10 > 9`, lines 465-468) is it decremented by the
`random.uniform(1, 6)` draw `jitter` (line 473). -/
def animMidFrame (acc : ℚ) (isMoving : Bool) (jitter : ℚ) : ℚ :=
  if isMoving then acc
  else if acc > 2 then
    let animationIndex := pyTrunc (pyFmod ((acc - 2) * 10) 10)
    if animationIndex = 0 ∧ (acc - 2) * 10 > 9 then acc - jitter
    else acc
  else acc

/-- Embeds the end-of-frame accumulator update (lines 641-647 together with
the mid-frame decrement): `acc += dt`, then reset to 0 when the moving flag
changed between the previous and the current frame. -/
def accEndOfFrame (acc : ℚ) (movingNow wasMoving : Bool) (jitter dt : ℚ) : ℚ :=
  let a := animMidFrame acc movingNow jitter
  let a := a + dt
  if (wasMoving && !movingNow) || (!wasMoving && movingNow) then 0 else a

/-! ## Frame Orchestrator (rpg_game.py lines 241-647) -/

/-- The per-frame external inputs: frame delta time (line 261), raw key
states (lines 267-278), gamepad availability and the magnitude/angle the
source derives from the raw axes (lines 283-291), and the
`random.uniform(1, 6)` draw that the idle-jitter branch would consume
(line 473). -/
structure FrameInput where
  dt : ℚ
  keyW : Bool
  keyS : Bool
  keyA : Bool
  keyD : Bool
  padAvailable : Bool
  padMagnitude : ℚ
  padAngle : ℚ
  jitter : ℚ

/-- The game-loop state that persists across frames: character position,
direction, moving flag, the collision-box list, the animation accumulator,
the previous-frame moving flag, and the `was_collision` debug flag. -/
structure GameState where
  charPos : ℚ × ℚ
  charDir : ℕ
  isMoving : Bool
  collBoxes : List Rect
  charAnimAccumulator : ℚ
  wasMoving : Bool
  wasCollision : Bool
  deriving Repr

/-- The state established by `PysoRealm.__enter__` (lines 189-200): position
`(WORLD_WIDTH/2 - 1, WORLD_HEIGHT/2 - 1)`, direction 0, accumulator 0,
empty collision-box list, `was_moving = False`. -/
def initState : GameState :=
  { charPos := initCharPos, charDir := 0, isMoving := false, collBoxes := [],
    charAnimAccumulator := 0, wasMoving := false, wasCollision := false }

/-- One iteration of the frame loop (lines 257-647), restricted to the
state-relevant steps; pure drawing and camera code mutates none of the
fields modelled here.  `normalizeV` is the external raylib collaborator
`vector2_normalize` (line 341), invoked only on a nonzero delta exactly as
in the source (lines 340-343); `frameRand` is the per-frame PRNG stream the
source re-seeds with the literal 476 (line 258).  The step order follows the
source: input → direction match → integration and clamping (lines 345-352)
→ collision resolution against the *stored* box list (lines 354-377) →
`coll_boxes.clear()` (line 379) → world generation appending this frame's
boxes (lines 399-418, 486-509) → accumulator update (lines 455-479,
641-644) → `was_moving = is_moving` (line 647). -/
def frameStep (normalizeV : Int × Int → ℚ × ℚ) (frameRand : RandState)
    (inp : FrameInput) (st : GameState) : GameState :=
  let dp := movementIntent inp.keyW inp.keyS inp.keyA inp.keyD
    inp.padAvailable inp.padMagnitude inp.padAngle
  let dm := resolveDirection dp.1 dp.2 st.charDir st.isMoving
  let norm := if dp.1 ≠ 0 ∨ dp.2 ≠ 0 then normalizeV dp else (0, 0)
  let charSpeed : ℚ := 3
  let px := st.charPos.1 + norm.1 * charSpeed * inp.dt
  let py := st.charPos.2 + norm.2 * charSpeed * inp.dt
  let px := max 0 (min px ((WORLD_WIDTH : ℚ) - 1))
  let py := max 0 (min py ((WORLD_HEIGHT : ℚ) - 1))
  let hb := hitboxAt (px, py)
  let rs := resolveAll hb st.collBoxes ⟨(px, py), dm.2, false⟩
  let gen := (generateFrame frameRand).1
  let acc := accEndOfFrame st.charAnimAccumulator rs.moving st.wasMoving
    inp.jitter inp.dt
  { charPos := rs.pos, charDir := dm.1, isMoving := rs.moving,
    collBoxes := boxesOf gen, charAnimAccumulator := acc,
    wasMoving := rs.moving, wasCollision := rs.wasCollision }

/-- Run the frame loop over a list of frames, each with its own per-frame
PRNG state and external inputs. -/
def runFrames (normalizeV : Int × Int → ℚ × ℚ)
    (frames : List (RandState × FrameInput)) (st : GameState) : GameState :=
  frames.foldl (fun s f => frameStep normalizeV f.1 f.2 s) st

/-- A degenerate stand-in for the external `vector2_normalize` collaborator,
used in concrete runs whose movement delta is zero (where the source never
calls it). -/
def nullNormalize : Int × Int → ℚ × ℚ := fun _ => (0, 0)

/-- The all-zeros raw-draw stream at position 0: every presence draw
selects, every choice picks template 0. -/
def zeroStream : RandState := ⟨fun _ => 0, 0⟩

/-- The all-ones raw-draw stream at position 0: no covering and no obstacle
is ever selected. -/
def oneStream : RandState := ⟨fun _ => 1, 0⟩

/-- A frame with no keys held, no gamepad, and the given delta time and
idle-jitter draw. -/
def idleInput (dt jitter : ℚ) : FrameInput :=
  ⟨dt, false, false, false, false, false, 0, 0, jitter⟩

/-! ## Theorems: Coordinate Mapper claims -/

section RatEval

attribute [local semireducible] Rat.add Rat.mul Rat.sub Rat.inv Rat.ofScientific

set_option maxRecDepth 1000000

set_option maxHeartbeats 8000000

/-- Claim C5: for every (u, v) the tile-to-screen transform returns
x = (u+v)*0.5*TILE_WIDTH and y = ((u-v)*0.5*TILE_HEIGHT) - (TILE_FULL_HEIGHT - TILE_HEIGHT),
with TILE_WIDTH = 256, TILE_HEIGHT = 128, TILE_FULL_HEIGHT = 512.  Totality is
by construction: `tile_to_screen_space` is a total Lean function on ℚ × ℚ. -/
theorem tile_to_screen_space_formula (u v : ℚ) :
    tile_to_screen_space u v
      = ((u + v) * (1/2) * TILE_WIDTH,
         (u - v) * (1/2) * TILE_HEIGHT - (TILE_FULL_HEIGHT - TILE_HEIGHT))
    ∧ TILE_WIDTH = 256 ∧ TILE_HEIGHT = 128 ∧ TILE_FULL_HEIGHT = 512 :=
  ⟨rfl, rfl, rfl, rfl⟩

/-- Claim C6, counterexample: `tile_to_screen_space` is not linear.  It maps
(0,0) to (0, -384), not (0,0), and it fails additivity at p = q = (1,0):
toScreen(2,0) = (256, -256) while toScreen(1,0) + toScreen(1,0) = (256, -640). -/
theorem toScreen_not_linear :
    tile_to_screen_space 0 0 ≠ (0, 0)
    ∧ tile_to_screen_space (1 + 1) (0 + 0)
        ≠ ((tile_to_screen_space 1 0).1 + (tile_to_screen_space 1 0).1,
           (tile_to_screen_space 1 0).2 + (tile_to_screen_space 1 0).2) := by
  constructor <;> decide

/-- Claim C6, amended: the tile-to-screen transform is affine, not linear.
Subtracting its value at the origin, toScreen(0,0) = (0, -384), yields a map
that is linear in (u, v): it respects addition and scalar multiplication. -/
theorem toScreen_affine_linear (a b pu pv qu qv : ℚ) :
    ((tile_to_screen_space (a*pu + b*qu) (a*pv + b*qv)).1 - toScreenOrigin.1,
     (tile_to_screen_space (a*pu + b*qu) (a*pv + b*qv)).2 - toScreenOrigin.2)
      = (a * ((tile_to_screen_space pu pv).1 - toScreenOrigin.1)
           + b * ((tile_to_screen_space qu qv).1 - toScreenOrigin.1),
         a * ((tile_to_screen_space pu pv).2 - toScreenOrigin.2)
           + b * ((tile_to_screen_space qu qv).2 - toScreenOrigin.2)) := by
  simp only [tile_to_screen_space, toScreenOrigin, TILE_WIDTH, TILE_HEIGHT,
    TILE_FULL_HEIGHT, Prod.mk.injEq]
  constructor <;> ring

/-- Claim C10: the scalar-argument and `Vector2`-argument tile-to-screen
implementations agree on every input. -/
theorem tile_to_screen_space_vector_agrees (u v : ℚ) :
    tile_to_screen_space u v = tile_to_screen_space_vector (u, v) := rfl

/-- Claim C9, counterexample: the Actor's initial position is
(WORLD_WIDTH/2 - 1, WORLD_HEIGHT/2 - 1) = (5, 5), not the world center
(5.5, 5.5) claimed by the specification. -/
theorem initCharPos_not_center : initCharPos ≠ (11/2, 11/2) := by decide

/-- Claim C9, amended: at session start the Actor is created with position
(WORLD_WIDTH/2 - 1, WORLD_HEIGHT/2 - 1) = (5, 5) in the 12×12 world (one
tile south-west of the exact center (5.5, 5.5)). -/
theorem initCharPos_value : initCharPos = (5, 5) := by decide

/-- Claim C2, counterexample: on a frame whose combined delta is (0, 0), a
character that was moving on the previous frame (prevDir = 3, prevMoving =
true) does not keep `isMoving = true`: the code assigns `is_moving = False`
before the match, so the result is (3, false), not the claimed (3, true). -/
theorem resolveDirection_not_sticky_moving :
    resolveDirection 0 0 3 true ≠ (3, true) := by decide

/-- Claim C2, amended: for every combined integer delta (dx, dy) outside the
8 literal pairs — including the zero vector and diagonal-key-cancellation
results — the character direction retains its previous-frame value, while
`isMoving` is set to false for that frame (it does not retain a previous
`true`). -/
theorem resolveDirection_sticky_direction (dx dy : Int) (d : ℕ) (m : Bool)
    (h : (dx, dy) ∉ dirPairs) :
    resolveDirection dx dy d m = (d, false) := by
  simp only [dirPairs, List.mem_cons, List.not_mem_nil, or_false, not_or,
    Prod.mk.injEq, not_and] at h
  obtain ⟨h1, h2, h3, h4, h5, h6, h7, h8⟩ := h
  unfold resolveDirection
  split_ifs with c1 c2 c3 c4 c5 c6 c7 c8
  · exact absurd c1.2 (h1 c1.1)
  · exact absurd c2.2 (h2 c2.1)
  · exact absurd c3.2 (h3 c3.1)
  · exact absurd c4.2 (h4 c4.1)
  · exact absurd c5.2 (h5 c5.1)
  · exact absurd c6.2 (h6 c6.1)
  · exact absurd c7.2 (h7 c7.1)
  · exact absurd c8.2 (h8 c8.1)
  · rfl

/-- Witness for the amended C2 theorem at the concrete non-matching input
(0, 0) with previous direction 3 and previous moving flag true. -/
theorem resolveDirection_sticky_direction_witness :
    resolveDirection 0 0 3 true = (3, false) :=
  resolveDirection_sticky_direction 0 0 3 true (by decide)

/-- Claim C7, counterexample: with the analog stick at angle 90° (east on
screen) and magnitude 0.8 (above the 0.4 deadzone) and no keys held, the
movement intent is (1, 1), but the direction match then yields index 1 =
North-East (module docstring lines 12-20), not index 2 = East with
`isMoving = true` as the claim states. -/
theorem gamepad_east_not_E :
    movementIntent false false false false true (4/5) 90 = (1, 1)
    ∧ resolveDirection 1 1 0 false ≠ (2, true) := by
  constructor <;> decide

/-- Claim C7, amended: with the analog stick at angle 90° and magnitude 0.8
(no keys held), the Input Resolver produces the MovementIntent (1, 1), and
direction resolution yields direction index 1 (North-East in the source's
direction indexing, where East is index 2) with `isMoving = true`, for any
previous direction and moving flag. -/
theorem gamepad_east_sector (d : ℕ) (m : Bool) :
    movementIntent false false false false true (4/5) 90 = (1, 1)
    ∧ resolveDirection 1 1 d m = (1, true) := by
  refine ⟨by decide, ?_⟩
  simp [resolveDirection]

/-- Claim C1: for every pair of executions of the per-frame world generation
that start from the same fixed seed (476) and use the same row-major
cell-scan order — modelled as both executions running `generateFrame` on the
draw stream determined by seeding with 476 — the resulting sequences of
floor-tile choices, ground-covering presence draws and choices, obstacle
presence flags and template choices, and the derived collision-box lists,
are identical. -/
theorem generation_deterministic (seedStream : ℕ → ℕ → ℕ)
    (exec1 exec2 : GenOutput × RandState)
    (h1 : exec1 = generateFrame ⟨seedStream 476, 0⟩)
    (h2 : exec2 = generateFrame ⟨seedStream 476, 0⟩) :
    exec1.1 = exec2.1 ∧ boxesOf exec1.1 = boxesOf exec2.1 := by
  subst h1; subst h2; exact ⟨rfl, rfl⟩

/-- Witness for C1 at a concrete seed-to-stream function and two concrete
executions. -/
theorem generation_deterministic_witness :
    (generateFrame ⟨(fun _ _ => 0 : ℕ → ℕ → ℕ) 476, 0⟩).1
      = (generateFrame ⟨(fun _ _ => 0 : ℕ → ℕ → ℕ) 476, 0⟩).1
    ∧ boxesOf (generateFrame ⟨(fun _ _ => 0 : ℕ → ℕ → ℕ) 476, 0⟩).1
      = boxesOf (generateFrame ⟨(fun _ _ => 0 : ℕ → ℕ → ℕ) 476, 0⟩).1 :=
  generation_deterministic (fun _ _ => 0) _ _ rfl rfl

/-- Claim C3, counterexample: in the first tick from the initial state the
Collision Resolver runs against the *stored* (still empty) box list, not
against the freshly regenerated set.  With the all-zeros draw stream the
fresh set contains a box overlapping the Actor's hitbox at (5, 5), yet the
tick reports no collision and leaves the position unmutated — contradicting
the claim that collision in tick N is resolved against the boxes generated
in tick N. -/
theorem first_tick_uses_stale_boxes :
    (frameStep nullNormalize zeroStream (idleInput 1 2) initState).wasCollision = false
    ∧ (frameStep nullNormalize zeroStream (idleInput 1 2) initState).charPos = (5, 5)
    ∧ ((frameStep nullNormalize zeroStream (idleInput 1 2) initState).collBoxes.any
        (fun b => checkCollisionRecs (hitboxAt (5, 5)) b)) = true := by
  refine ⟨by decide, by decide, by decide⟩

/-- Claim C3, amended: in every tick the Collision Resolver runs first,
against the box list stored from the previous tick (empty on the very first
tick), and the World Populator then regenerates the set the *next* tick
resolves against: after any tick, the stored list equals exactly the
deterministic generation of that tick's per-frame stream, independently of
all previous state.  Since every tick reseeds with the same constant 476,
from the second tick onward the set the resolver tests is content-identical
to the set freshly regenerated later in the same tick. -/
theorem collision_resolved_one_tick_late (normalizeV : Int × Int → ℚ × ℚ)
    (frameRand : RandState) (inp : FrameInput) (st : GameState) :
    (frameStep normalizeV frameRand inp st).collBoxes = genCollBoxes frameRand := by
  simp only [frameStep, genCollBoxes]

/-- Claim C4: in a single box-vs-box resolution step, a non-overlapping
obstacle leaves the Actor position unmutated; an overlapping obstacle forces
`isMoving` false and pushes the Actor out along exactly one axis by the
overlap extent — along Y when the overlap rectangle's width exceeds its
height, with the sign chosen by comparing the overlap's Y origin to the
obstacle's Y origin (pushing away from the obstacle), otherwise along X by
the analogous rule. -/
theorem collision_step_spec (pos : ℚ × ℚ) (m w : Bool) (box : Rect) :
    (checkCollisionRecs (hitboxAt pos) box = false →
      (resolveStep (hitboxAt pos) ⟨pos, m, w⟩ box).pos = pos
      ∧ (resolveStep (hitboxAt pos) ⟨pos, m, w⟩ box).moving = m)
    ∧ (checkCollisionRecs (hitboxAt pos) box = true →
      (resolveStep (hitboxAt pos) ⟨pos, m, w⟩ box).moving = false
      ∧ (resolveStep (hitboxAt pos) ⟨pos, m, w⟩ box).pos =
        (if (getCollisionRec (hitboxAt pos) box).width
            > (getCollisionRec (hitboxAt pos) box).height then
          (pos.1,
           if (getCollisionRec (hitboxAt pos) box).y > box.y then
             pos.2 + (getCollisionRec (hitboxAt pos) box).height
           else pos.2 - (getCollisionRec (hitboxAt pos) box).height)
        else
          ((if (getCollisionRec (hitboxAt pos) box).x > box.x then
              pos.1 + (getCollisionRec (hitboxAt pos) box).width
            else pos.1 - (getCollisionRec (hitboxAt pos) box).width),
           pos.2))) := by
  constructor
  · intro h
    simp [resolveStep, h]
  · intro h
    refine ⟨by simp [resolveStep, h], ?_⟩
    simp only [resolveStep, h, if_true]
    split_ifs <;> rfl

/-- Witness for C4 at concrete inputs: an overlapping pair (the obstacle box
of template 0 at cell (5, 5) against the Actor at (5, 5)) for the overlap
branch, and a far-away box for the non-overlap branch. -/
theorem collision_step_spec_witness :
    checkCollisionRecs (hitboxAt (5, 5)) ⟨71/8, 15/8, 1/4, 1/4⟩ = true
    ∧ (resolveStep (hitboxAt (5, 5)) ⟨(5, 5), true, false⟩ ⟨71/8, 15/8, 1/4, 1/4⟩).moving = false
    ∧ checkCollisionRecs (hitboxAt (5, 5)) ⟨0, 0, 1/4, 1/4⟩ = false
    ∧ (resolveStep (hitboxAt (5, 5)) ⟨(5, 5), true, false⟩ ⟨0, 0, 1/4, 1/4⟩).pos = (5, 5) :=
  ⟨by decide,
   ((collision_step_spec (5, 5) true false ⟨71/8, 15/8, 1/4, 1/4⟩).2 (by decide)).1,
   by decide,
   ((collision_step_spec (5, 5) true false ⟨0, 0, 1/4, 1/4⟩).1 (by decide)).1⟩

/-- Claim C8, counterexample: the animation accumulator is not a ≥ 0
invariant.  Three idle frames with dt = 1.5 and an idle-jitter draw of 5
(a legal value of the uniform [1, 6) draw) drive the accumulator from 0 to
1.5 to 3.0, and in the third frame the pickup-cycle-completion branch
decrements it by 5, ending the frame at -0.5 < 0. -/
theorem animAccumulator_goes_negative :
    ((1:ℚ) ≤ 5 ∧ (5:ℚ) < 6)
    ∧ (runFrames nullNormalize
        [(oneStream, idleInput (3/2) 5), (oneStream, idleInput (3/2) 5),
         (oneStream, idleInput (3/2) 5)]
        initState).charAnimAccumulator < 0 := by
  refine ⟨⟨by norm_num, by norm_num⟩, by decide⟩

end RatEval

/-- The mid-frame accumulator update never takes the accumulator below
-31/10: the decrement branch fires only when `(acc - 2) * 10 > 9`, i.e.
`acc > 29/10`, and the jitter draw is below 6. -/
theorem animMidFrame_lower_bound (acc jitter : ℚ) (m : Bool)
    (hj : jitter < 6) (h : -31/10 < acc) :
    -31/10 < animMidFrame acc m jitter := by
  simp only [animMidFrame]
  split_ifs with h1 h2 h3
  · exact h
  · linarith [h3.2]
  · exact h
  · exact h

/-- The end-of-frame accumulator update preserves the -31/10 lower bound
when dt ≥ 0 and the jitter draw is below 6. -/
theorem accEndOfFrame_lower_bound (acc jitter dt : ℚ) (mn wm : Bool)
    (hdt : 0 ≤ dt) (hj : jitter < 6) (h : -31/10 < acc) :
    -31/10 < accEndOfFrame acc mn wm jitter dt := by
  simp only [accEndOfFrame]
  have hmid := animMidFrame_lower_bound acc jitter mn hj h
  split_ifs with htr
  · norm_num
  · linarith

/-- One frame step preserves the -31/10 accumulator lower bound. -/
theorem frameStep_acc_lower_bound (normalizeV : Int × Int → ℚ × ℚ)
    (frameRand : RandState) (inp : FrameInput) (st : GameState)
    (hdt : 0 ≤ inp.dt) (hj : inp.jitter < 6)
    (h : -31/10 < st.charAnimAccumulator) :
    -31/10 < (frameStep normalizeV frameRand inp st).charAnimAccumulator := by
  simp only [frameStep]
  exact accEndOfFrame_lower_bound _ _ _ _ _ hdt hj h

/-- Claim C8, amended: the ≥ 0 invariant fails (the idle-jitter decrement
can drive the accumulator below zero), but a lower bound does hold: at the
end of every frame reachable from the initial state, provided every frame
has dt ≥ 0 and an idle-jitter draw below 6 (as every uniform [1, 6) draw
is), the accumulator stays strictly above -31/10. -/
theorem animAccumulator_lower_bound (normalizeV : Int × Int → ℚ × ℚ)
    (frames : List (RandState × FrameInput))
    (h : ∀ f ∈ frames, 0 ≤ f.2.dt ∧ f.2.jitter < 6) :
    -31/10 < (runFrames normalizeV frames initState).charAnimAccumulator := by
  have main : ∀ (fs : List (RandState × FrameInput)) (st : GameState),
      (∀ f ∈ fs, 0 ≤ f.2.dt ∧ f.2.jitter < 6) →
      -31/10 < st.charAnimAccumulator →
      -31/10 < (runFrames normalizeV fs st).charAnimAccumulator := by
    intro fs
    induction fs with
    | nil => intro st _ h0; exact h0
    | cons f t ih =>
      intro st hf h0
      have h1 := hf f (List.mem_cons_self f t)
      exact ih (frameStep normalizeV f.1 f.2 st)
        (fun g hg => hf g (List.mem_cons_of_mem f hg))
        (frameStep_acc_lower_bound normalizeV f.1 f.2 st h1.1 h1.2 h0)
  exact main frames initState h (by norm_num [initState])

/-- Witness for the amended C8 theorem on a concrete one-frame run. -/
theorem animAccumulator_lower_bound_witness :
    -31/10 < (runFrames nullNormalize [(oneStream, idleInput 1 2)]
      initState).charAnimAccumulator :=
  animAccumulator_lower_bound nullNormalize [(oneStream, idleInput 1 2)]
    (by
      intro f hf
      simp only [List.mem_singleton] at hf
      subst hf
      exact ⟨by norm_num [idleInput], by norm_num [idleInput]⟩)
